import Mathlib

/-
Verification development for the clamav-report tool
(src/clamav_report/clamav_report.py).

The Python module is shallowly embedded below: pure functions become Lean
functions, the Ansible result callback becomes explicit state passing over an
event list, file output becomes a produced string plus an explicit operation
trace, and fallible dictionary/list accesses become Option values.  Machine
integers do not occur; Python integers are modelled by Nat/Int directly.
-/

/-! ## Module-level constants (clamav_report.py, lines 43-54) -/

/-- Field names of the CSV schema, in declared order (FIELDS tuple). -/
def FIELDS : List String :=
  ["Group Name", "System Name", "Last Update Time", "Last Scan Time",
   "Host IPS Status (Host IPS)"]

/-- Format string used by strftime in timestamp_to_string. -/
def TIME_FORMAT : String := "%m/%d/%Y %H:%M"

/-- Remote path of the ClamAV signature database file. -/
def CLAMAV_DB_FILENAME : String := "/var/lib/clamav/daily.cld"

/-- Remote path of the last-scan log file. -/
def LAST_SCAN_LOG_FILENAME : String := "/var/log/clamav/lastscan.log"

/-- Remote path of the last-detection marker file. -/
def LAST_DETECTION_FILENAME : String := "/var/log/clamav/last_detection"

/-! ## Civil time arithmetic

Python datetime renders an epoch-seconds value through the proleptic
Gregorian calendar.  civilFromDays is the standard days-to-civil conversion
(the algorithm used by every civil calendar library): given a day count
relative to 1970-01-01 it returns the (year, month, day) triple.
-/

/-- Convert a day count since the Unix epoch into a (year, month, day)
triple of the proleptic Gregorian calendar. -/
def civilFromDays (z0 : Int) : Int × Int × Int :=
  let z := z0 + 719468
  let era := z.fdiv 146097
  let doe := z - era * 146097
  let yoe := (doe - doe.fdiv 1460 + doe.fdiv 36524 - doe.fdiv 146096).fdiv 365
  let y := yoe + era * 400
  let doy := doe - (365 * yoe + yoe.fdiv 4 - yoe.fdiv 100)
  let mp := (5 * doy + 2).fdiv 153
  let d := doy - (153 * mp + 2).fdiv 5 + 1
  let m := mp + (if mp < 10 then 3 else -9)
  (y + (if m ≤ 2 then 1 else 0), m, d)

/-- Zero-pad a natural number to two digits, as the strftime numeric
directives do. -/
def pad2 (n : Nat) : String := if n < 10 then "0" ++ toString n else toString n

/-- Render a civil time given in seconds since the epoch with the pattern
held by TIME_FORMAT, that is month/day/year space hour:minute, each numeric
component zero-padded to two digits and the year printed in full. -/
def strftime_time_format (civilSeconds : Int) : String :=
  let days := civilSeconds.fdiv 86400
  let rem := civilSeconds - days * 86400
  let hh := rem.fdiv 3600
  let mm := (rem - hh * 3600).fdiv 60
  let ymd := civilFromDays days
  pad2 ymd.2.1.toNat ++ "/" ++ pad2 ymd.2.2.toNat ++ "/" ++ toString ymd.1
    ++ " " ++ pad2 hh.toNat ++ ":" ++ pad2 mm.toNat

/-- Embedding of timestamp_to_string (clamav_report.py lines 178-183).
datetime.fromtimestamp interprets the POSIX timestamp in the local
timezone, giving local civil seconds; replace with tzlocal and astimezone
to tzutc subtracts the same local offset again.  The local timezone is
modelled by its fixed UTC offset in seconds (off). -/
def timestamp_to_string (off : Int) (mod_time : Nat) : String :=
  let t_local : Int := (mod_time : Int) + off
  let t_utc : Int := t_local - off
  strftime_time_format t_utc

/-- Claim C2 (corrected statement): timestamp_to_string renders the UTC
civil time of the epoch value with minutes precision (pattern
month/day/year hour:minute, no seconds component), and its output is
independent of the local timezone offset, hence deterministic under a
fixed local timezone. -/
theorem c2_timestamp_utc_minutes (off off' : Int) (m : Nat) :
    timestamp_to_string off m = strftime_time_format (m : Int)
      ∧ timestamp_to_string off m = timestamp_to_string off' m := by
  have h : ∀ o : Int, ((m : Int) + o) - o = (m : Int) := by intro o; ring
  constructor
  · show strftime_time_format (((m : Int) + off) - off) = _
    rw [h]
  · show strftime_time_format (((m : Int) + off) - off)
      = strftime_time_format (((m : Int) + off') - off')
    rw [h, h]

/-- Claim C2 counterexample: at epoch 0 under UTC offset 0 the formatter
produces a minutes-precision string, not the seconds-precision string the
claim asserts. -/
theorem c2_time_format_no_seconds :
    timestamp_to_string 0 0 = "01/01/1970 00:00"
      ∧ timestamp_to_string 0 0 ≠ "01/01/1970 00:00:00" := by
  constructor
  · rfl
  · decide

/-! ## Data model

Task result payloads as the Ansible engine delivers them to the callback.
A fact-gathering payload carries the ansible_facts dictionary (the three
facts this tool and the spec mention); a stat payload carries the invoked
path (invocation.module_args.path) and the stat dictionary (exists flag,
optional mtime).  Any other payload shape is Payload.other.
-/

/-- Relevant entries of the ansible_facts dictionary of a host. -/
structure Facts where
  ansible_hostname : String
  ansible_default_ipv4_address : String
  ansible_os : String
deriving DecidableEq

/-- Result payload of one stat module invocation: the probed path and the
stat dictionary (exists flag, mtime key present only when the file is). -/
structure StatPayload where
  path : String
  statExists : Bool
  mtime : Option Nat
deriving DecidableEq

/-- One task result payload (the result dot underscore result dictionary). -/
inductive Payload where
  | facts (f : Facts)
  | stat (s : StatPayload)
  | other
deriving DecidableEq

/-- Per-host mapping from task name to ordered payload list. -/
abbrev TaskMap : Type := List (String × List Payload)

/-- Full results mapping: host name to TaskMap, in insertion order, as a
Python dict of dicts of lists is ordered. -/
abbrev Results : Type := List (String × TaskMap)

/-- One row of the report: the CSV field names paired with nullable
string values, in insertion order. -/
abbrev Row : Type := List (String × Option String)

/-! ## Association list helpers (Python dict semantics) -/

/-- Dictionary lookup on an ordered association list. -/
def lookupAssoc {α : Type} (m : List (String × α)) (k : String) : Option α :=
  match m with
  | [] => none
  | (k0, v0) :: rest => if k0 = k then some v0 else lookupAssoc rest k

/-- Dictionary assignment: update the value in place when the key exists
(keeping its position), append a new entry otherwise. -/
def setAssoc {α : Type} (m : List (String × α)) (k : String) (v : α) :
    List (String × α) :=
  match m with
  | [] => [(k, v)]
  | (k0, v0) :: rest =>
      if k0 = k then (k0, v) :: rest else (k0, v0) :: setAssoc rest k v

theorem lookupAssoc_setAssoc {α : Type} (m : List (String × α)) (k k0 : String)
    (v : α) :
    lookupAssoc (setAssoc m k v) k0
      = if k0 = k then some v else lookupAssoc m k0 := by
  induction m with
  | nil =>
    by_cases h : k0 = k
    · simp [setAssoc, lookupAssoc, h]
    · have h2 : ¬ k = k0 := fun h3 => h h3.symm
      simp [setAssoc, lookupAssoc, h, h2]
  | cons hd tl ih =>
    obtain ⟨k1, v1⟩ := hd
    simp only [setAssoc]
    by_cases h1 : k1 = k
    · subst h1
      simp only [if_pos rfl, lookupAssoc]
      by_cases h0 : k1 = k0
      · subst h0
        simp
      · have h2 : ¬ k0 = k1 := fun h3 => h0 h3.symm
        simp [h0, h2]
    · simp only [if_neg h1, lookupAssoc]
      by_cases h0 : k1 = k0
      · subst h0
        simp [h1]
      · simp [h0, ih]

/-- Lookup of a task list in a TaskMap, with the defaultdict semantics of
an absent key reading as the empty list (an absent key in the inner
defaultdict of the results store yields an empty list). -/
def lookupTaskList (tm : TaskMap) (t : String) : List Payload :=
  (lookupAssoc tm t).getD []

/-! ## Row Builder (create_host_row, clamav_report.py lines 186-201) -/

/-- Access host_results of Gathering Facts at index 0 and its
ansible_facts entry.  An empty list (IndexError) or a payload without an
ansible_facts dictionary (KeyError) is a failure. -/
def getFacts : List Payload → Option Facts
  | Payload.facts f :: _ => some f
  | _ => none

/-- The loop of create_host_row over the stat task payloads: for each one,
read invocation.module_args.path and stat.get mtime with default 0, and
assign the formatted time into the mtimes dictionary.  A payload without
those dictionary keys (KeyError) is a failure. -/
def buildMtimes (off : Int) : List Payload → List (String × String) →
    Option (List (String × String))
  | [], acc => some acc
  | Payload.stat s :: rest, acc =>
      buildMtimes off rest
        (setAssoc acc s.path (timestamp_to_string off (s.mtime.getD 0)))
  | _ :: _, _ => none

/-- Embedding of create_host_row: build the mtimes dictionary from the stat
payloads, then the row dictionary over FIELDS initialised to null and
assigned System Name, Last Update Time, Last Scan Time and the hardcoded
Host IPS Status value.  The assignment of a detection time is commented out
in the source.  Missing dictionary keys (facts absent, a required path
absent from mtimes) make the whole call fail, as the Python code raises. -/
def create_host_row (off : Int) (host_results : TaskMap) : Option Row := do
  let facts ← getFacts (lookupTaskList host_results "Gathering Facts")
  let mtimes ← buildMtimes off (lookupTaskList host_results "stat") []
  let updateTime ← lookupAssoc mtimes CLAMAV_DB_FILENAME
  let scanTime ← lookupAssoc mtimes LAST_SCAN_LOG_FILENAME
  some [("Group Name", none),
        ("System Name", some facts.ansible_hostname),
        ("Last Update Time", some updateTime),
        ("Last Scan Time", some scanTime),
        ("Host IPS Status (Host IPS)", some "ON")]

/-- Claim C1 (corrected statement): for a host result set with a
fact-gathering outcome and the three stat outcomes of the play, the row
keeps the FIELDS layout with System Name equal to the hostname, Last
Update Time the formatted signature database mtime, Last Scan Time the
formatted scan log mtime, Host IPS Status hardcoded ON and Group Name
null; the default IPv4 address and the OS name facts are not copied into
any field and the detection marker time occupies no field. -/
theorem c1_create_host_row_fields (off : Int) (hostname ip os : String)
    (tScan tDet tDb : Nat) (e1 e2 e3 : Bool) :
    create_host_row off
      [("Gathering Facts", [Payload.facts ⟨hostname, ip, os⟩]),
       ("stat",
        [Payload.stat ⟨LAST_SCAN_LOG_FILENAME, e1, some tScan⟩,
         Payload.stat ⟨LAST_DETECTION_FILENAME, e2, some tDet⟩,
         Payload.stat ⟨CLAMAV_DB_FILENAME, e3, some tDb⟩])]
      = some [("Group Name", none),
              ("System Name", some hostname),
              ("Last Update Time", some (timestamp_to_string off tDb)),
              ("Last Scan Time", some (timestamp_to_string off tScan)),
              ("Host IPS Status (Host IPS)", some "ON")] := by
  rfl

/-- A concrete host result set used to refute claim C1 as stated: facts
hostname h1, default IPv4 10.0.0.5, OS Linux, and three stat outcomes with
distinct known epochs. -/
def c1SampleHR : TaskMap :=
  [("Gathering Facts", [Payload.facts ⟨"h1", "10.0.0.5", "Linux"⟩]),
   ("stat",
    [Payload.stat ⟨LAST_SCAN_LOG_FILENAME, true, some 86400⟩,
     Payload.stat ⟨LAST_DETECTION_FILENAME, true, some 172800⟩,
     Payload.stat ⟨CLAMAV_DB_FILENAME, true, some 259200⟩])]

/-- The row the code produces for c1SampleHR under UTC offset 0. -/
def c1SampleRow : Row :=
  [("Group Name", none),
   ("System Name", some "h1"),
   ("Last Update Time", some "01/04/1970 00:00"),
   ("Last Scan Time", some "01/02/1970 00:00"),
   ("Host IPS Status (Host IPS)", some "ON")]

/-- Claim C1 counterexample: on c1SampleHR the produced row holds no field
equal to the default IPv4 address, none equal to the OS name, and none
equal to the formatted detection marker time 01/03/1970 00:00, so the row
has no IP-address field, no operating-system field and only two populated
time fields, against the three the claim asserts. -/
theorem c1_row_lacks_ip_and_os :
    create_host_row 0 c1SampleHR = some c1SampleRow
      ∧ c1SampleRow.all (fun kv => kv.2 != some "10.0.0.5") = true
      ∧ c1SampleRow.all (fun kv => kv.2 != some "Linux") = true
      ∧ c1SampleRow.all (fun kv => kv.2 != some "01/03/1970 00:00") = true := by
  refine ⟨rfl, ?_, ?_, ?_⟩ <;> decide

/-! ## Result Collector (ResultCallback, clamav_report.py lines 56-84) -/

/-- One log record emitted by a callback handler, tagged with its level. -/
inductive LogEntry where
  | debugOk (host task : String)
  | warnUnreachable (host task : String)
  | errorFailed (host task : String)
deriving DecidableEq

/-- One engine notification delivered to the callback: a successful task
with its payload, an unreachable host, or a failed task. -/
inductive Event where
  | ok (host task : String) (payload : Payload)
  | unreachable (host task : String)
  | failed (host task : String)
deriving DecidableEq

/-- State of the ResultCallback instance: the nested results store and the
log produced so far. -/
structure CState where
  results : Results
  log : List LogEntry
deriving DecidableEq

/-- Append a payload at the end of the list stored under a task name,
creating the entry at the end when absent (inner defaultdict). -/
def appendTask (tm : TaskMap) (t : String) (p : Payload) : TaskMap :=
  match tm with
  | [] => [(t, [p])]
  | (t0, l) :: rest =>
      if t0 = t then (t0, l ++ [p]) :: rest else (t0, l) :: appendTask rest t p

/-- Append a payload under host and task in the nested results store,
creating missing entries at the end (outer defaultdict). -/
def appendResult (rs : Results) (h t : String) (p : Payload) : Results :=
  match rs with
  | [] => [(h, [(t, [p])])]
  | (h0, tm) :: rest =>
      if h0 = h then (h0, appendTask tm t p) :: rest
      else (h0, tm) :: appendResult rest h t p

/-- Embedding of ResultCallback.v2_runner_on_ok: log at debug level and
append the result payload under host and task name. -/
def v2_runner_on_ok (st : CState) (host task : String) (payload : Payload) :
    CState :=
  ⟨appendResult st.results host task payload, st.log ++ [LogEntry.debugOk host task]⟩

/-- Embedding of ResultCallback.v2_runner_on_unreachable: log a warning
naming host and task; the results store is untouched. -/
def v2_runner_on_unreachable (st : CState) (host task : String) : CState :=
  ⟨st.results, st.log ++ [LogEntry.warnUnreachable host task]⟩

/-- Embedding of ResultCallback.v2_runner_on_failed: log an error naming
host and task; the results store is untouched. -/
def v2_runner_on_failed (st : CState) (host task : String) : CState :=
  ⟨st.results, st.log ++ [LogEntry.errorFailed host task]⟩

/-- Dispatch one engine notification to the matching handler. -/
def handleEvent (st : CState) (e : Event) : CState :=
  match e with
  | Event.ok h t p => v2_runner_on_ok st h t p
  | Event.unreachable h t => v2_runner_on_unreachable st h t
  | Event.failed h t => v2_runner_on_failed st h t

/-- Fold a whole notification stream through the callback, starting from
the empty store the constructor builds. -/
def foldEvents (events : List Event) : CState :=
  events.foldl handleEvent ⟨[], []⟩

/-- Read the ordered payload sequence stored under a host and task pair,
reading absent keys as empty. -/
def lookup2 (rs : Results) (h t : String) : List Payload :=
  match lookupAssoc rs h with
  | none => []
  | some tm => lookupTaskList tm t

theorem lookupTaskList_cons_same (tm : TaskMap) (t0 : String)
    (l : List Payload) (t' : String) (h : t0 = t') :
    lookupTaskList ((t0, l) :: tm) t' = l := by
  simp [lookupTaskList, lookupAssoc, h]

theorem lookupTaskList_cons_ne (tm : TaskMap) (t0 : String)
    (l : List Payload) (t' : String) (h : ¬ t0 = t') :
    lookupTaskList ((t0, l) :: tm) t' = lookupTaskList tm t' := by
  simp [lookupTaskList, lookupAssoc, h]

theorem lookup2_cons_same (tl : List (String × TaskMap)) (h0 : String)
    (tm : TaskMap) (h' t' : String) (h : h0 = h') :
    lookup2 ((h0, tm) :: tl) h' t' = lookupTaskList tm t' := by
  simp [lookup2, lookupAssoc, h]

theorem lookup2_cons_ne (tl : List (String × TaskMap)) (h0 : String)
    (tm : TaskMap) (h' t' : String) (h : ¬ h0 = h') :
    lookup2 ((h0, tm) :: tl) h' t' = lookup2 tl h' t' := by
  simp [lookup2, lookupAssoc, h]

theorem lookup2_appendTask (tm : TaskMap) (t t' : String) (p : Payload) :
    lookupTaskList (appendTask tm t p) t'
      = if t' = t then lookupTaskList tm t ++ [p] else lookupTaskList tm t' := by
  induction tm with
  | nil =>
    by_cases h : t' = t
    · subst h
      simp [appendTask, lookupTaskList, lookupAssoc]
    · have h2 : ¬ t = t' := fun h3 => h h3.symm
      simp [appendTask, lookupTaskList, lookupAssoc, h, h2]
  | cons hd tl ih =>
    obtain ⟨t0, l⟩ := hd
    by_cases h0 : t0 = t
    · subst h0
      rw [show appendTask ((t0, l) :: tl) t0 p = (t0, l ++ [p]) :: tl from
        by simp [appendTask]]
      by_cases h1 : t0 = t'
      · rw [lookupTaskList_cons_same tl t0 (l ++ [p]) t' h1, if_pos h1.symm,
            lookupTaskList_cons_same tl t0 l t0 rfl]
      · have h2 : ¬ t' = t0 := fun h3 => h1 h3.symm
        rw [lookupTaskList_cons_ne tl t0 (l ++ [p]) t' h1, if_neg h2,
            lookupTaskList_cons_ne tl t0 l t' h1]
    · rw [show appendTask ((t0, l) :: tl) t p = (t0, l) :: appendTask tl t p from
        by simp [appendTask, h0]]
      by_cases h1 : t0 = t'
      · have h2 : ¬ t' = t := fun h3 => h0 (h1.trans h3)
        rw [lookupTaskList_cons_same (appendTask tl t p) t0 l t' h1, if_neg h2,
            lookupTaskList_cons_same tl t0 l t' h1]
      · rw [lookupTaskList_cons_ne (appendTask tl t p) t0 l t' h1, ih,
            lookupTaskList_cons_ne tl t0 l t' h1]
        by_cases h2 : t' = t
        · rw [if_pos h2, if_pos h2,
              lookupTaskList_cons_ne tl t0 l t (fun h3 => h1 (h3.trans h2.symm))]
        · rw [if_neg h2, if_neg h2]

theorem lookup2_appendResult (rs : Results) (h t : String) (p : Payload)
    (h' t' : String) :
    lookup2 (appendResult rs h t p) h' t'
      = if h' = h ∧ t' = t then lookup2 rs h t ++ [p]
        else lookup2 rs h' t' := by
  induction rs with
  | nil =>
    rw [show appendResult [] h t p = [(h, [(t, [p])])] from rfl]
    by_cases hh : h = h'
    · rw [lookup2_cons_same [] h [(t, [p])] h' t' hh]
      by_cases ht : t = t'
      · rw [lookupTaskList_cons_same [] t [p] t' ht,
            if_pos ⟨hh.symm, ht.symm⟩]
        simp [lookup2, lookupAssoc]
      · have ht2 : ¬ (h' = h ∧ t' = t) := fun h3 => ht (h3.2.symm)
        rw [lookupTaskList_cons_ne [] t [p] t' ht, if_neg ht2]
        simp [lookup2, lookupTaskList, lookupAssoc]
    · have hh2 : ¬ (h' = h ∧ t' = t) := fun h3 => hh (h3.1.symm)
      rw [lookup2_cons_ne [] h [(t, [p])] h' t' hh, if_neg hh2]
  | cons hd tl ih =>
    obtain ⟨h0, tm⟩ := hd
    by_cases hh0 : h0 = h
    · subst hh0
      rw [show appendResult ((h0, tm) :: tl) h0 t p
            = (h0, appendTask tm t p) :: tl from by simp [appendResult]]
      by_cases hh : h0 = h'
      · rw [lookup2_cons_same tl h0 (appendTask tm t p) h' t' hh,
            lookup2_appendTask, lookup2_cons_same tl h0 tm h' t' hh,
            lookup2_cons_same tl h0 tm h0 t rfl]
        by_cases ht : t' = t
        · rw [if_pos ht, if_pos ⟨hh.symm, ht⟩]
        · rw [if_neg ht, if_neg (fun h3 => ht h3.2)]
      · have hh2 : ¬ (h' = h0 ∧ t' = t) := fun h3 => hh (h3.1.symm)
        rw [lookup2_cons_ne tl h0 (appendTask tm t p) h' t' hh, if_neg hh2,
            lookup2_cons_ne tl h0 tm h' t' hh]
    · rw [show appendResult ((h0, tm) :: tl) h t p
            = (h0, tm) :: appendResult tl h t p from by simp [appendResult, hh0]]
      by_cases hh : h0 = h'
      · have hh2 : ¬ (h' = h ∧ t' = t) := fun h3 => hh0 (hh.trans h3.1)
        rw [lookup2_cons_same (appendResult tl h t p) h0 tm h' t' hh, if_neg hh2,
            lookup2_cons_same tl h0 tm h' t' hh]
      · rw [lookup2_cons_ne (appendResult tl h t p) h0 tm h' t' hh, ih,
            lookup2_cons_ne tl h0 tm h' t' hh]
        by_cases h2 : h' = h ∧ t' = t
        · rw [if_pos h2, if_pos h2,
              lookup2_cons_ne tl h0 tm h t (fun h3 => hh (h3.trans h2.1.symm))]
        · rw [if_neg h2, if_neg h2]

/-- Claim C6: the on-success handler appends the payload at the end of the
sequence stored under its host and task pair and leaves every other pair
unchanged, while the unreachable and failed handlers leave the whole
results store unchanged and only add one log entry naming host and task. -/
theorem c6_callback_frame (st : CState) (h t : String) (p : Payload)
    (h' t' : String) :
    lookup2 (v2_runner_on_ok st h t p).results h' t'
        = (if h' = h ∧ t' = t then lookup2 st.results h t ++ [p]
           else lookup2 st.results h' t')
      ∧ (v2_runner_on_unreachable st h t).results = st.results
      ∧ (v2_runner_on_failed st h t).results = st.results
      ∧ (v2_runner_on_unreachable st h t).log
          = st.log ++ [LogEntry.warnUnreachable h t]
      ∧ (v2_runner_on_failed st h t).log
          = st.log ++ [LogEntry.errorFailed h t] := by
  refine ⟨?_, rfl, rfl, rfl, rfl⟩
  exact lookup2_appendResult st.results h t p h' t'

/-! ## CSV Writer (write_csv, clamav_report.py lines 204-211)

The csv module with default dialect: minimal quoting (a cell is quoted
exactly when it contains the delimiter, the quote character, carriage
return or newline, doubling embedded quote characters) and CRLF record
terminator.  DictWriter with extrasaction ignore drops row keys outside
the field list; an absent key renders as the empty restval; a None value
renders as an empty cell.  The produced file content is modelled as a
string, and the sequence of file operations as an explicit trace.
-/

/-- Minimal-quoting test of the csv module default dialect. -/
def csvNeedsQuote (delim : Char) (s : String) : Bool :=
  s.data.any (fun c => c = delim || c = '"' || c = '\r' || c = '\n')

/-- Double one character when it is the quote character. -/
def csvDoubleQuote (c : Char) : List Char :=
  if c = '"' then ['"', '"'] else [c]

/-- Quote a cell when the dialect requires it, doubling embedded quote
characters. -/
def csvEscape (delim : Char) (s : String) : String :=
  if csvNeedsQuote delim s then
    String.mk ('"' :: (s.data.flatMap csvDoubleQuote ++ ['"']))
  else s

/-- One CSV record: the escaped cells joined by the delimiter, terminated
by the CRLF the csv module writes. -/
def csvRecord (delim : Char) (cells : List String) : String :=
  String.intercalate (String.singleton delim) (cells.map (csvEscape delim))
    ++ "\r\n"

/-- Cell value the DictWriter takes for a field: the stored value when the
key is present and not None, the empty string when the value is None or
the key is absent (restval). -/
def rowCell (row : Row) (f : String) : String :=
  match lookupAssoc row f with
  | none => ""
  | some none => ""
  | some (some v) => v

/-- Embedding of write_csv as the content written to the output file:
the header record over the field names followed by one record per row in
sequence order. -/
def write_csv (fields : List String) (data : List Row) (delim : Char) :
    String :=
  csvRecord delim fields
    ++ String.join (data.map (fun row => csvRecord delim (fields.map (rowCell row))))

/-- One operation write_csv performs on the output file. -/
inductive FileOp where
  | openTrunc (path : String)
  | writeStr (s : String)
  | flush
  | close
deriving DecidableEq

/-- Embedding of write_csv as its file operation trace: open the path in
write mode (truncating), write the header, write each row record.  The
source never flushes or closes the handle it opens; the csv writer only
holds it until the function returns. -/
def write_csv_ops (fields : List String) (data : List Row)
    (output_filename : String) (delim : Char) : List FileOp :=
  FileOp.openTrunc output_filename
    :: FileOp.writeStr (csvRecord delim fields)
    :: data.map (fun row => FileOp.writeStr (csvRecord delim (fields.map (rowCell row))))

/-- Claim C5 (code evaluated at the failing input): write_csv opens the
destination in truncating write mode, so the path is overwritten, but its
operation trace contains no close and no flush operation on any path:
the handle is left to the garbage collector instead of being released
before return as the specification requires. -/
theorem c5_write_csv_never_closes :
    FileOp.openTrunc "out.csv" ∈ write_csv_ops FIELDS [] "out.csv" ','
      ∧ FileOp.close ∉ write_csv_ops FIELDS [] "out.csv" ','
      ∧ FileOp.flush ∉ write_csv_ops FIELDS [] "out.csv" ',' := by
  refine ⟨?_, ?_, ?_⟩ <;> decide

/-! ## Probe driver cleanup (run_ansible, clamav_report.py lines 151-175)

run_ansible builds the play, then inside a try block creates the
TaskQueueManager and runs the play; the finally block calls tqm.cleanup
when the manager variable is not None and always removes the engine
temporary directory with shutil.rmtree.  The engine is abstracted by the
two fallible steps (constructor and run); the cleanup work is recorded as
an action trace. -/

/-- Resource actions run_ansible performs in its finally block. -/
inductive CleanupAction where
  | tqmCleanup
  | rmtreeTmp
deriving DecidableEq

/-- Embedding of the try and finally control flow of run_ansible.
create models the TaskQueueManager constructor, run models tqm.run; each
either succeeds or raises.  The returned pair is the outcome propagated
to the caller together with the trace of cleanup actions the finally
block performed before returning or re-raising. -/
def run_ansible (create : Except String Unit) (run : Except String Unit) :
    Except String Unit × List CleanupAction :=
  match create with
  | Except.error e => (Except.error e, [CleanupAction.rmtreeTmp])
  | Except.ok _ =>
      match run with
      | Except.error e => (Except.error e, [CleanupAction.tqmCleanup, CleanupAction.rmtreeTmp])
      | Except.ok _ => (Except.ok (), [CleanupAction.tqmCleanup, CleanupAction.rmtreeTmp])

/-- Claim C7: whatever the engine does, the finally block of run_ansible
removes the temporary directory, and whenever the task queue manager was
actually created its cleanup runs too, on the normal path and on the
error path alike. -/
theorem c7_run_ansible_cleanup (create run : Except String Unit) :
    CleanupAction.rmtreeTmp ∈ (run_ansible create run).2
      ∧ (create.isOk = true →
          CleanupAction.tqmCleanup ∈ (run_ansible create run).2) := by
  cases create with
  | error e =>
    refine ⟨?_, ?_⟩
    · simp [run_ansible]
    · intro h
      simp [Except.isOk, Except.toBool] at h
  | ok u =>
    cases run with
    | error e => refine ⟨by simp [run_ansible], fun _ => by simp [run_ansible]⟩
    | ok v => refine ⟨by simp [run_ansible], fun _ => by simp [run_ansible]⟩

/-- Claim C7 witness: a run whose engine step raises still has both
cleanup actions in the trace. -/
theorem c7_run_ansible_cleanup_witness :
    CleanupAction.rmtreeTmp ∈ (run_ansible (Except.ok ()) (Except.error "boom")).2
      ∧ CleanupAction.tqmCleanup ∈ (run_ansible (Except.ok ()) (Except.error "boom")).2 :=
  ⟨(c7_run_ansible_cleanup (Except.ok ()) (Except.error "boom")).1,
   (c7_run_ansible_cleanup (Except.ok ()) (Except.error "boom")).2 rfl⟩

/-! ## Argument validation and the orchestrator gate (main, lines 218-246)

The docopt argument map is modelled by a structure holding the values the
schema inspects: the parsed forks value (None when int conversion fails),
the raw log level string, and the two os.path predicates on the inventory
file.  Python str.lower on the ASCII level names is modelled by mapping
Char.toLower over the characters. -/

/-- Valid log level names, lowercase, as listed in the schema lambda. -/
def LOG_LEVELS : List String :=
  ["debug", "info", "warning", "error", "critical"]

/-- ASCII lowercasing as Python str.lower performs on the level names. -/
def pyLower (s : String) : String := String.mk (s.data.map Char.toLower)

/-- Parsed and checked docopt arguments relevant to validation. -/
structure Args where
  become : Bool
  forks : Option Int
  group : String
  logLevel : String
  inventoryExists : Bool
  inventoryIsFile : Bool
deriving DecidableEq

/-- The forks schema clause: Use int succeeded and the value is positive. -/
def forks_valid (forks : Option Int) : Bool :=
  match forks with
  | some n => decide (0 < n)
  | none => false

/-- Embedding of the Schema.validate call of main: each clause in turn,
failing with the error string the schema carries. -/
def validate_args (a : Args) : Except String Unit :=
  if forks_valid a.forks = false then
    Except.error "The --forks value must be a positive integer value."
  else if pyLower a.logLevel ∉ LOG_LEVELS then
    Except.error "Possible values for --log-level are debug, info, warning, error, and critical."
  else if a.inventoryExists = false then
    Except.error "Inventory file does not exist."
  else if a.inventoryIsFile = false then
    Except.error "Inventory file must be a file."
  else Except.ok ()

/-- Outcome of the argument handling prefix of main: whether sys.exit was
called with status 1, what was printed to standard error, and whether
control reached the run_ansible call. -/
structure MainOutcome where
  exited : Option Nat
  stderrOut : Option String
  probeInvoked : Bool
deriving DecidableEq

/-- Embedding of the validation gate of main: on a SchemaError the error
is printed to stderr and the process exits with status 1 before any probe
work; otherwise execution proceeds into run_ansible. -/
def main_model (a : Args) : MainOutcome :=
  match validate_args a with
  | Except.error e => ⟨some 1, some e, false⟩
  | Except.ok _ => ⟨none, none, true⟩

/-- Claim C8: when the lowercased log level is one of debug, info,
warning, error, critical and the remaining arguments are valid, main
proceeds into the probe; when the lowercased log level is not in that
list, validation fails, the error is printed to standard error, the
process exits with status 1 and the probe is never invoked. -/
theorem c8_log_level_validation (a : Args) :
    (pyLower a.logLevel ∈ LOG_LEVELS →
      forks_valid a.forks = true →
      a.inventoryExists = true →
      a.inventoryIsFile = true →
      main_model a = ⟨none, none, true⟩)
    ∧ (pyLower a.logLevel ∉ LOG_LEVELS →
        ∃ e, main_model a = ⟨some 1, some e, false⟩) := by
  constructor
  · intro hlvl hforks hexists hfile
    simp [main_model, validate_args, hlvl, hforks, hexists, hfile]
  · intro hlvl
    by_cases hforks : forks_valid a.forks = false
    · exact ⟨"The --forks value must be a positive integer value.",
        by simp [main_model, validate_args, hforks]⟩
    · refine ⟨"Possible values for --log-level are debug, info, warning, error, and critical.", ?_⟩
      simp only [Bool.not_eq_false] at hforks
      simp [main_model, validate_args, hforks, hlvl]

/-- Claim C8 witness: the mixed-case level Debug passes validation with
otherwise valid arguments, and the level verbose makes main exit with
status 1, print the schema error to stderr and skip the probe. -/
theorem c8_log_level_validation_witness :
    main_model ⟨false, some 10, "all", "Debug", true, true⟩ = ⟨none, none, true⟩
      ∧ ∃ e, main_model ⟨false, some 10, "all", "verbose", true, true⟩
          = ⟨some 1, some e, false⟩ :=
  ⟨(c8_log_level_validation ⟨false, some 10, "all", "Debug", true, true⟩).1
      (by decide) rfl rfl rfl,
   (c8_log_level_validation ⟨false, some 10, "all", "verbose", true, true⟩).2
      (by decide)⟩

/-! ## Row building loop and report pipeline (main, lines 262-270) -/

/-- The loop of main over results.items in insertion order: one row per
host from create_host_row; an exception from create_host_row aborts the
whole run, carrying the offending host name here. -/
def buildRows (off : Int) (rs : Results) : Except String (List Row) :=
  match rs with
  | [] => Except.ok []
  | (h, tm) :: rest =>
      match create_host_row off tm with
      | none => Except.error h
      | some row => (buildRows off rest).map (fun rows => row :: rows)

/-- The Row Builder plus CSV Writer pipeline of main: build the rows over
the collected results, then render the output file content over FIELDS
with the comma delimiter. -/
def generate_report (off : Int) (rs : Results) : Except String String :=
  (buildRows off rs).map (fun rows => write_csv FIELDS rows ',')

/-- Claim C9: the row-building and writing pipeline is deterministic in
the collected results; two runs over equal collected results under the
same fixed local timezone produce byte-identical output content. -/
theorem c9_pipeline_deterministic (off1 off2 : Int) (rs1 rs2 : Results)
    (hoff : off1 = off2) (hrs : rs1 = rs2) :
    generate_report off1 rs1 = generate_report off2 rs2 := by
  subst hoff
  subst hrs
  rfl

/-- Claim C9 witness: the pipeline applied twice to one concrete result
set yields the same output. -/
theorem c9_pipeline_deterministic_witness :
    generate_report 0 [("h1", c1SampleHR)] = generate_report 0 [("h1", c1SampleHR)] :=
  c9_pipeline_deterministic 0 0 [("h1", c1SampleHR)] [("h1", c1SampleHR)] rfl rfl

/-! ## Claim C4: CSV output shape -/

theorem csvEscape_of_plain (d : Char) (s : String)
    (h : csvNeedsQuote d s = false) : csvEscape d s = s := by
  simp [csvEscape, h]

theorem map_eq_of_forall {α β : Type} (l : List α) (f g : α → β)
    (h : ∀ a ∈ l, f a = g a) : l.map f = l.map g := by
  induction l with
  | nil => rfl
  | cons hd tl ih =>
    simp only [List.map_cons]
    rw [h hd (List.mem_cons_self hd tl), ih (fun a ha => h a (List.mem_cons_of_mem hd ha))]

theorem csvRecord_of_plain (d : Char) (cells : List String)
    (h : ∀ c ∈ cells, csvNeedsQuote d c = false) :
    csvRecord d cells = String.intercalate (String.singleton d) cells ++ "\r\n" := by
  unfold csvRecord
  rw [show cells.map (csvEscape d) = cells.map id from
    map_eq_of_forall cells (csvEscape d) id (fun c hc => csvEscape_of_plain d c (h c hc))]
  rw [List.map_id]

theorem rowCell_setAssoc_ne (row : Row) (k f : String) (v : Option String)
    (h : ¬ f = k) :
    rowCell (setAssoc row k v) f = rowCell row f := by
  unfold rowCell
  rw [lookupAssoc_setAssoc row k f v, if_neg h]

/-- Claim C4 counterexample: with a field list whose single name contains
the delimiter, the header record is the quoted name, not the plain
comma-join of the field names the claim asserts for every field list. -/
theorem c4_header_quoted_field :
    write_csv ["a,b"] [] ',' = "\"a,b\"\r\n"
      ∧ write_csv ["a,b"] [] ',' ≠ "a,b" ++ "\r\n" := by
  constructor
  · rfl
  · decide

/-- Claim C4 (corrected statement): when no field name and no rendered
cell of any row needs quoting under the minimal-quoting dialect, the
output is exactly the comma-joined field names in declared order followed
by one comma-joined record per row in sequence order; a key outside the
field list never changes a record (extras are ignored), and a field whose
key is absent from a row or whose stored value is null renders as the
empty cell. -/
theorem c4_write_csv_shape (fields : List String) (data : List Row)
    (row : Row) (k f : String) (v : Option String)
    (hfields : ∀ g ∈ fields, csvNeedsQuote ',' g = false)
    (hcells : ∀ r ∈ data, ∀ g ∈ fields, csvNeedsQuote ',' (rowCell r g) = false)
    (hk : k ∉ fields)
    (hf : lookupAssoc row f = none ∨ lookupAssoc row f = some none) :
    write_csv fields data ','
        = String.intercalate "," fields ++ "\r\n"
          ++ String.join (data.map (fun r =>
               String.intercalate "," (fields.map (rowCell r)) ++ "\r\n"))
      ∧ fields.map (rowCell (setAssoc row k v)) = fields.map (rowCell row)
      ∧ rowCell row f = "" := by
  refine ⟨?_, ?_, ?_⟩
  · unfold write_csv
    rw [csvRecord_of_plain ',' fields hfields]
    have hrec : data.map (fun r => csvRecord ',' (fields.map (rowCell r)))
        = data.map (fun r =>
            String.intercalate "," (fields.map (rowCell r)) ++ "\r\n") := by
      refine map_eq_of_forall data _ _ (fun r hr => ?_)
      refine csvRecord_of_plain ',' (fields.map (rowCell r)) ?_
      intro c hc
      obtain ⟨g, hg, hgc⟩ := List.mem_map.mp hc
      rw [← hgc]
      exact hcells r hr g hg
    rw [hrec]
    rfl
  · refine map_eq_of_forall fields _ _ (fun g hg => ?_)
    exact rowCell_setAssoc_ne row k g v (fun h3 => hk (h3 ▸ hg))
  · cases hf with
    | inl h1 => simp [rowCell, h1]
    | inr h1 => simp [rowCell, h1]

/-- Claim C4 witness: the corrected statement evaluated on the real field
list, one populated row and one row with missing and null fields, an
extra key and a missing key. -/
theorem c4_write_csv_shape_witness :
    write_csv FIELDS [c1SampleRow, [("System Name", some "h2"), ("Group Name", none)]] ','
        = String.intercalate "," FIELDS ++ "\r\n"
          ++ String.join
              ([c1SampleRow, [("System Name", some "h2"), ("Group Name", none)]].map
                (fun r =>
                  String.intercalate "," (FIELDS.map (rowCell r)) ++ "\r\n"))
      ∧ FIELDS.map (rowCell (setAssoc c1SampleRow "COMPUTER_NAME" (some "x")))
          = FIELDS.map (rowCell c1SampleRow)
      ∧ rowCell c1SampleRow "IP_ADDR1" = "" :=
  c4_write_csv_shape FIELDS
    [c1SampleRow, [("System Name", some "h2"), ("Group Name", none)]]
    c1SampleRow "COMPUTER_NAME" "IP_ADDR1" (some "x")
    (by decide) (by decide) (by decide) (Or.inl (by decide))

/-! ## Claim C3: which hosts a run reports -/

/-- Whether one payload is a stat payload. -/
def isStatPayload : Payload → Bool
  | Payload.stat _ => true
  | _ => false

/-- Paths of the stat payloads of a payload list, in order. -/
def statPaths : List Payload → List String
  | [] => []
  | Payload.stat s :: rest => s.path :: statPaths rest
  | _ :: rest => statPaths rest

/-- A host result set in which fact-gathering succeeded (a facts payload
at index 0) and all three stat probes of the play succeeded with a stat
payload each: the shape of results for a host the claim calls fully
successful. -/
def hostComplete (tm : TaskMap) : Bool :=
  (match lookupTaskList tm "Gathering Facts" with
   | Payload.facts _ :: _ => true
   | _ => false)
  && (lookupTaskList tm "stat").all isStatPayload
  && (statPaths (lookupTaskList tm "stat")).contains LAST_SCAN_LOG_FILENAME
  && (statPaths (lookupTaskList tm "stat")).contains LAST_DETECTION_FILENAME
  && (statPaths (lookupTaskList tm "stat")).contains CLAMAV_DB_FILENAME

theorem buildMtimes_total (off : Int) (l : List Payload)
    (h : l.all isStatPayload = true) :
    ∀ acc, ∃ m, buildMtimes off l acc = some m := by
  induction l with
  | nil => intro acc; exact ⟨acc, rfl⟩
  | cons hd tl ih =>
    intro acc
    cases hd with
    | stat s =>
      simp only [List.all_cons, Bool.and_eq_true] at h
      exact ih h.2 (setAssoc acc s.path (timestamp_to_string off (s.mtime.getD 0)))
    | facts f => simp [List.all_cons, isStatPayload] at h
    | other => simp [List.all_cons, isStatPayload] at h

theorem buildMtimes_lookup_isSome (off : Int) (l : List Payload)
    (p : String) :
    ∀ acc m, buildMtimes off l acc = some m →
      (p ∈ statPaths l ∨ (lookupAssoc acc p).isSome = true) →
      (lookupAssoc m p).isSome = true := by
  induction l with
  | nil =>
    intro acc m hm hp
    cases hp with
    | inl h1 => simp [statPaths] at h1
    | inr h1 =>
      simp only [buildMtimes, Option.some.injEq] at hm
      rw [← hm]
      exact h1
  | cons hd tl ih =>
    intro acc m hm hp
    cases hd with
    | stat s =>
      simp only [buildMtimes] at hm
      refine ih (setAssoc acc s.path (timestamp_to_string off (s.mtime.getD 0))) m hm ?_
      cases hp with
      | inl h1 =>
        simp only [statPaths, List.mem_cons] at h1
        cases h1 with
        | inl h2 =>
          refine Or.inr ?_
          rw [lookupAssoc_setAssoc, if_pos h2]
          rfl
        | inr h2 => exact Or.inl h2
      | inr h1 =>
        refine Or.inr ?_
        rw [lookupAssoc_setAssoc]
        by_cases h2 : p = s.path
        · rw [if_pos h2]; rfl
        · rw [if_neg h2]; exact h1
    | facts f => simp [buildMtimes] at hm
    | other => simp [buildMtimes] at hm

theorem create_host_row_of_complete (off : Int) (tm : TaskMap)
    (h : hostComplete tm = true) : ∃ r, create_host_row off tm = some r := by
  unfold hostComplete at h
  simp only [Bool.and_eq_true] at h
  obtain ⟨⟨⟨⟨hfacts, hall⟩, hscan⟩, hdet⟩, hdb⟩ := h
  obtain ⟨f, rest, hf⟩ :
      ∃ f rest, lookupTaskList tm "Gathering Facts" = Payload.facts f :: rest := by
    cases hg : lookupTaskList tm "Gathering Facts" with
    | nil => rw [hg] at hfacts; simp at hfacts
    | cons hd tl =>
      cases hd with
      | facts f => exact ⟨f, tl, rfl⟩
      | stat s => rw [hg] at hfacts; simp at hfacts
      | other => rw [hg] at hfacts; simp at hfacts
  obtain ⟨m, hm⟩ := buildMtimes_total off (lookupTaskList tm "stat") hall []
  have hupd : (lookupAssoc m CLAMAV_DB_FILENAME).isSome = true := by
    refine buildMtimes_lookup_isSome off (lookupTaskList tm "stat")
      CLAMAV_DB_FILENAME [] m hm (Or.inl ?_)
    simpa using hdb
  have hsc : (lookupAssoc m LAST_SCAN_LOG_FILENAME).isSome = true := by
    refine buildMtimes_lookup_isSome off (lookupTaskList tm "stat")
      LAST_SCAN_LOG_FILENAME [] m hm (Or.inl ?_)
    simpa using hscan
  obtain ⟨u, hu⟩ := Option.isSome_iff_exists.mp hupd
  obtain ⟨s, hs⟩ := Option.isSome_iff_exists.mp hsc
  refine ⟨[("Group Name", none),
           ("System Name", some f.ansible_hostname),
           ("Last Update Time", some u),
           ("Last Scan Time", some s),
           ("Host IPS Status (Host IPS)", some "ON")], ?_⟩
  unfold create_host_row
  rw [hf]
  simp [getFacts, hm, hu, hs]

theorem buildRows_of_complete (off : Int) (rs : Results)
    (h : ∀ p ∈ rs, hostComplete p.2 = true) :
    ∃ rows, buildRows off rs = Except.ok rows ∧ rows.length = rs.length := by
  induction rs with
  | nil => exact ⟨[], rfl, rfl⟩
  | cons hd tl ih =>
    obtain ⟨hhost, tm⟩ := hd
    obtain ⟨r, hr⟩ := create_host_row_of_complete off tm
      (h (hhost, tm) (List.mem_cons_self _ _))
    obtain ⟨rows, hrows, hlen⟩ := ih (fun p hp => h p (List.mem_cons_of_mem _ hp))
    refine ⟨r :: rows, ?_, by simp [hlen]⟩
    unfold buildRows
    rw [hr, hrows]
    rfl

theorem lookupAssoc_appendResult_ne (rs : Results) (h0 t : String)
    (p : Payload) (h : String) (hne : ¬ h0 = h) :
    lookupAssoc (appendResult rs h0 t p) h = lookupAssoc rs h := by
  induction rs with
  | nil => simp [appendResult, lookupAssoc, hne]
  | cons hd tl ih =>
    obtain ⟨h1, tm⟩ := hd
    by_cases h2 : h1 = h0
    · subst h2
      rw [show appendResult ((h1, tm) :: tl) h1 t p
            = (h1, appendTask tm t p) :: tl from by simp [appendResult]]
      simp [lookupAssoc, hne]
    · rw [show appendResult ((h1, tm) :: tl) h0 t p
            = (h1, tm) :: appendResult tl h0 t p from by simp [appendResult, h2]]
      by_cases h3 : h1 = h
      · simp [lookupAssoc, h3]
      · simp [lookupAssoc, h3, ih]

/-- Whether an event list holds no successful task result for a host. -/
def noOkFor (events : List Event) (h : String) : Bool :=
  events.all (fun e =>
    match e with
    | Event.ok h0 _ _ => h0 != h
    | _ => true)

theorem foldl_results_no_ok (events : List Event) :
    ∀ (st : CState) (h : String), noOkFor events h = true →
      lookupAssoc (events.foldl handleEvent st).results h
        = lookupAssoc st.results h := by
  induction events with
  | nil => intro st h _; rfl
  | cons e tl ih =>
    intro st h hno
    simp only [noOkFor, List.all_cons, Bool.and_eq_true] at hno
    have hrec := ih (handleEvent st e) h hno.2
    rw [List.foldl_cons, hrec]
    cases e with
    | ok h0 t p =>
      have hne : ¬ h0 = h := by
        have := hno.1
        simpa [bne_iff_ne] using this
      exact lookupAssoc_appendResult_ne st.results h0 t p h hne
    | unreachable h0 t => rfl
    | failed h0 t => rfl

theorem log_mem_foldl (events : List Event) :
    ∀ (st : CState) (x : LogEntry), x ∈ st.log →
      x ∈ (events.foldl handleEvent st).log := by
  induction events with
  | nil => intro st x hx; exact hx
  | cons e tl ih =>
    intro st x hx
    rw [List.foldl_cons]
    refine ih (handleEvent st e) x ?_
    cases e <;> exact List.mem_append_left _ hx

theorem unreachable_logged (events : List Event) :
    ∀ (st : CState) (h t : String), Event.unreachable h t ∈ events →
      LogEntry.warnUnreachable h t ∈ (events.foldl handleEvent st).log := by
  induction events with
  | nil => intro st h t hmem; simp at hmem
  | cons e tl ih =>
    intro st h t hmem
    rw [List.foldl_cons]
    rcases List.mem_cons.mp hmem with h1 | h1
    · subst h1
      refine log_mem_foldl tl _ _ ?_
      exact List.mem_append_right _ (List.mem_singleton_self _)
    · exact ih (handleEvent st e) h t h1

theorem failed_logged (events : List Event) :
    ∀ (st : CState) (h t : String), Event.failed h t ∈ events →
      LogEntry.errorFailed h t ∈ (events.foldl handleEvent st).log := by
  induction events with
  | nil => intro st h t hmem; simp at hmem
  | cons e tl ih =>
    intro st h t hmem
    rw [List.foldl_cons]
    rcases List.mem_cons.mp hmem with h1 | h1
    · subst h1
      refine log_mem_foldl tl _ _ ?_
      exact List.mem_append_right _ (List.mem_singleton_self _)
    · exact ih (handleEvent st e) h t h1

/-- Claim C3 (corrected statement): when every host present in the
collected results has a complete result set, the run builds exactly one
row per collected host without aborting; every unreachable notification
and every failed notification leaves one warning or error log entry
naming the host and task; and a host for which no task ever succeeded is
absent from the collected results, so it contributes zero rows.  The
completeness premise is necessary: a host with only some successful
results makes create_host_row raise and aborts the whole run, as the
counterexample shows. -/
theorem c3_complete_hosts_rows (off : Int) (events : List Event)
    (hcomp : ∀ p ∈ (foldEvents events).results, hostComplete p.2 = true) :
    (∃ rows, buildRows off (foldEvents events).results = Except.ok rows
        ∧ rows.length = (foldEvents events).results.length)
      ∧ (∀ h t, Event.unreachable h t ∈ events →
          LogEntry.warnUnreachable h t ∈ (foldEvents events).log)
      ∧ (∀ h t, Event.failed h t ∈ events →
          LogEntry.errorFailed h t ∈ (foldEvents events).log)
      ∧ (∀ h, noOkFor events h = true →
          lookupAssoc (foldEvents events).results h = none) := by
  refine ⟨buildRows_of_complete off (foldEvents events).results hcomp,
    fun h t hmem => unreachable_logged events ⟨[], []⟩ h t hmem,
    fun h t hmem => failed_logged events ⟨[], []⟩ h t hmem,
    fun h hno => ?_⟩
  have := foldl_results_no_ok events ⟨[], []⟩ h hno
  simpa [foldEvents, lookupAssoc] using this

/-- Event stream of the C3 witness: one fully successful host h1 and one
host h2 unreachable before any task succeeded. -/
def c3WitnessEvents : List Event :=
  [Event.ok "h1" "Gathering Facts" (Payload.facts ⟨"h1", "10.0.0.1", "Linux"⟩),
   Event.ok "h1" "stat" (Payload.stat ⟨LAST_SCAN_LOG_FILENAME, true, some 100⟩),
   Event.ok "h1" "stat" (Payload.stat ⟨LAST_DETECTION_FILENAME, false, none⟩),
   Event.ok "h1" "stat" (Payload.stat ⟨CLAMAV_DB_FILENAME, true, some 200⟩),
   Event.unreachable "h2" "Gathering Facts"]

/-- Claim C3 witness: on the concrete stream the run builds its rows
without aborting, the unreachable host is logged with a warning naming it
and stores no results, hence contributes zero rows. -/
theorem c3_complete_hosts_rows_witness :
    (buildRows 0 (foldEvents c3WitnessEvents).results).isOk = true
      ∧ LogEntry.warnUnreachable "h2" "Gathering Facts"
          ∈ (foldEvents c3WitnessEvents).log
      ∧ lookupAssoc (foldEvents c3WitnessEvents).results "h2" = none := by
  have T := c3_complete_hosts_rows 0 c3WitnessEvents (by decide)
  refine ⟨?_, T.2.1 "h2" "Gathering Facts" (by decide),
    T.2.2.2 "h2" (by decide)⟩
  obtain ⟨rows, hr, _⟩ := T.1
  rw [hr]
  rfl

/-- Event stream refuting claim C3 as stated: host h1 is fully
successful; host h2 succeeds at fact-gathering and one stat probe, then
its next stat task fails. -/
def c3BadEvents : List Event :=
  [Event.ok "h1" "Gathering Facts" (Payload.facts ⟨"h1", "10.0.0.1", "Linux"⟩),
   Event.ok "h1" "stat" (Payload.stat ⟨LAST_SCAN_LOG_FILENAME, true, some 100⟩),
   Event.ok "h1" "stat" (Payload.stat ⟨LAST_DETECTION_FILENAME, false, none⟩),
   Event.ok "h1" "stat" (Payload.stat ⟨CLAMAV_DB_FILENAME, true, some 200⟩),
   Event.ok "h2" "Gathering Facts" (Payload.facts ⟨"h2", "10.0.0.2", "Linux"⟩),
   Event.ok "h2" "stat" (Payload.stat ⟨LAST_SCAN_LOG_FILENAME, true, some 100⟩),
   Event.failed "h2" "stat"]

/-- Claim C3 counterexample: a failed host with some but not all
results does not merely contribute zero rows with a log entry — the whole
run aborts with an error on that host, and even the fully successful host
h1 gets no row, against the claimed silent-omission policy. -/
theorem c3_incomplete_failure_aborts :
    Event.failed "h2" "stat" ∈ c3BadEvents
      ∧ buildRows 0 (foldEvents c3BadEvents).results = Except.error "h2"
      ∧ hostComplete ((lookupAssoc (foldEvents c3BadEvents).results "h1").getD [])
          = true := by
  refine ⟨by decide, by rfl, by decide⟩

/-! ## Claim C10: the detection marker stat does not reach the row -/

/-- Two stat payload lists that agree everywhere except that entries whose
probed path is the last-detection marker may differ in modification time
and existence. -/
inductive StatListEquiv : List Payload → List Payload → Prop
  | nil : StatListEquiv [] []
  | cons_eq (p : Payload) {l1 l2 : List Payload} :
      StatListEquiv l1 l2 → StatListEquiv (p :: l1) (p :: l2)
  | cons_det (s1 s2 : StatPayload) {l1 l2 : List Payload}
      (h1 : s1.path = LAST_DETECTION_FILENAME)
      (h2 : s2.path = LAST_DETECTION_FILENAME) :
      StatListEquiv l1 l2 →
      StatListEquiv (Payload.stat s1 :: l1) (Payload.stat s2 :: l2)

theorem buildMtimes_equiv (off : Int) {l1 l2 : List Payload}
    (h : StatListEquiv l1 l2) :
    ∀ acc1 acc2,
      (∀ k, ¬ k = LAST_DETECTION_FILENAME →
        lookupAssoc acc1 k = lookupAssoc acc2 k) →
      (buildMtimes off l1 acc1 = none ∧ buildMtimes off l2 acc2 = none)
        ∨ (∃ m1 m2, buildMtimes off l1 acc1 = some m1
            ∧ buildMtimes off l2 acc2 = some m2
            ∧ ∀ k, ¬ k = LAST_DETECTION_FILENAME →
                lookupAssoc m1 k = lookupAssoc m2 k) := by
  induction h with
  | nil =>
    intro acc1 acc2 hacc
    exact Or.inr ⟨acc1, acc2, rfl, rfl, hacc⟩
  | cons_eq p hrec ih =>
    intro acc1 acc2 hacc
    cases p with
    | stat s =>
      refine ih (setAssoc acc1 s.path (timestamp_to_string off (s.mtime.getD 0)))
        (setAssoc acc2 s.path (timestamp_to_string off (s.mtime.getD 0))) ?_
      intro k hk
      rw [lookupAssoc_setAssoc, lookupAssoc_setAssoc]
      by_cases h2 : k = s.path
      · rw [if_pos h2, if_pos h2]
      · rw [if_neg h2, if_neg h2]
        exact hacc k hk
    | facts f => exact Or.inl ⟨rfl, rfl⟩
    | other => exact Or.inl ⟨rfl, rfl⟩
  | cons_det s1 s2 h1 h2 hrec ih =>
    intro acc1 acc2 hacc
    refine ih (setAssoc acc1 s1.path (timestamp_to_string off (s1.mtime.getD 0)))
      (setAssoc acc2 s2.path (timestamp_to_string off (s2.mtime.getD 0))) ?_
    intro k hk
    rw [lookupAssoc_setAssoc, lookupAssoc_setAssoc]
    rw [if_neg (h1 ▸ hk), if_neg (h2 ▸ hk)]
    exact hacc k hk

/-- Claim C10: create_host_row never depends on the stat outcome of the
last-detection marker path — for two host result sets with the same
fact-gathering results whose stat lists agree except at detection marker
entries, the produced rows (or the produced failure) are identical. -/
theorem c10_detection_noninterference (off : Int) (tm1 tm2 : TaskMap)
    (hf : lookupTaskList tm1 "Gathering Facts"
            = lookupTaskList tm2 "Gathering Facts")
    (hs : StatListEquiv (lookupTaskList tm1 "stat") (lookupTaskList tm2 "stat")) :
    create_host_row off tm1 = create_host_row off tm2 := by
  unfold create_host_row
  rw [hf]
  cases hg : getFacts (lookupTaskList tm2 "Gathering Facts") with
  | none => rfl
  | some f =>
    simp only [Option.bind_eq_bind, Option.some_bind]
    rcases buildMtimes_equiv off hs [] []
        (fun k _ => rfl) with ⟨hm1, hm2⟩ | ⟨m1, m2, hm1, hm2, hmk⟩
    · rw [hm1, hm2]
    · rw [hm1, hm2]
      simp only [Option.some_bind]
      have hdb : ¬ CLAMAV_DB_FILENAME = LAST_DETECTION_FILENAME := by decide
      have hsc : ¬ LAST_SCAN_LOG_FILENAME = LAST_DETECTION_FILENAME := by decide
      rw [hmk CLAMAV_DB_FILENAME hdb, hmk LAST_SCAN_LOG_FILENAME hsc]

/-- Host result sets of the C10 witness: identical except that the
detection marker exists with mtime 555 in the first and is absent in the
second. -/
def c10SampleA : TaskMap :=
  [("Gathering Facts", [Payload.facts ⟨"h1", "10.0.0.5", "Linux"⟩]),
   ("stat",
    [Payload.stat ⟨LAST_SCAN_LOG_FILENAME, true, some 100⟩,
     Payload.stat ⟨LAST_DETECTION_FILENAME, true, some 555⟩,
     Payload.stat ⟨CLAMAV_DB_FILENAME, true, some 200⟩])]

/-- Second host result set of the C10 witness. -/
def c10SampleB : TaskMap :=
  [("Gathering Facts", [Payload.facts ⟨"h1", "10.0.0.5", "Linux"⟩]),
   ("stat",
    [Payload.stat ⟨LAST_SCAN_LOG_FILENAME, true, some 100⟩,
     Payload.stat ⟨LAST_DETECTION_FILENAME, false, none⟩,
     Payload.stat ⟨CLAMAV_DB_FILENAME, true, some 200⟩])]

/-- Claim C10 witness: the two concrete result sets differing only in the
detection marker stat produce the same row. -/
theorem c10_detection_noninterference_witness :
    create_host_row 0 c10SampleA = create_host_row 0 c10SampleB :=
  c10_detection_noninterference 0 c10SampleA c10SampleB rfl
    (StatListEquiv.cons_eq _
      (StatListEquiv.cons_det ⟨LAST_DETECTION_FILENAME, true, some 555⟩
        ⟨LAST_DETECTION_FILENAME, false, none⟩ rfl rfl
        (StatListEquiv.cons_eq _ StatListEquiv.nil)))
